import Mathlib

/-!
# ATtiny1634, clockwise pin mapping (`avr/variants/tiny1634_CW/pins_arduino.h`)

A shallow embedding of the variant header: the pin constants, the derivation
macros and the `PROGMEM` lookup tables, followed by theorems about them.

Conventions of the embedding.

* A macro argument is a C `int` expression; it is modelled as an `Int`.  The
  only arithmetic the macros do is `p + 3` under the guard `p < 12` and
  `p - 3`, `p - 8`, `p - 11`, `p - 12` under guards that keep `p` between
  `3` and `17`, so no 16-bit wrap-around can change a result the theorems
  below speak about.
* A `PROGMEM` table is a `List`; reading index `p` is `tbl[p]?`, which is
  `none` outside the table.
* The tags `PA`, `PB`, `PC`, `NOT_A_PORT`, `NOT_ON_TIMER`, `TIMER0A`, ...,
  `NOT_AN_INTERRUPT` are declared by the core header `Arduino.h`, which is not
  part of this variant directory; they are parameters (`CoreTags`).
* The registers `GIFR`, `PCMSK0`, `PCMSK1`, `PCMSK2` come from the chip header
  of avr-libc.  A pointer result is an `Option Reg` with `NULL` as `none`; the
  mask registers, whose address the source takes (`&PCMSK0`), are symbolic
  names in `Reg`.  `GIFR` is written without an address-of, so the source
  reads it: the byte read is an argument (`gifr`) of `digitalPinToPCICR`, and
  the pointer it becomes is `valueToPointer gifr`.
* The addresses of the port registers (`&DDRA`, `&PORTA`, `&PUEA`, `&PINA`,
  ...) and the bit numbers `PINB1`, `PINB2`, `PINC1` also come from the chip
  header; the addresses are parameters (`IoRegs`), the bit numbers are the
  index that each name carries.
-/

namespace Tiny1634CW

/-! ## Tags of the core header (parameters) -/

/-- Parameters of the embedding: the byte-valued tags that the core header
`Arduino.h` declares and this variant file only uses.  Their values are not
fixed here; every theorem states which relations between them it needs. -/
structure CoreTags where
  NOT_A_PORT : Nat
  PA : Nat
  PB : Nat
  PC : Nat
  NOT_ON_TIMER : Nat
  TIMER0A : Nat
  TIMER0B : Nat
  TIMER1A : Nat
  TIMER1B : Nat
  NOT_AN_INTERRUPT : Int

/-- One admissible choice of tags (ports numbered from 1 after `NOT_A_PORT`,
timer channels numbered from 1 after `NOT_ON_TIMER`, interrupt sentinel `-1`),
used to show that the hypotheses of the theorems can be met. -/
def sampleTags : CoreTags := CoreTags.mk 0 1 2 3 0 1 2 3 4 (-1)

/-- The macro `_BV(bit)` of avr-libc: `(1 << (bit))`. -/
def _BV (bit : Nat) : Nat := 1 <<< bit

/-! ## Pin constants (lines 24-63) -/

def NUM_DIGITAL_PINS : Nat := 18
def NUM_ANALOG_INPUTS : Nat := 12

def PIN_PA0 : Nat := 0
def PIN_PA1 : Nat := 1
def PIN_PA2 : Nat := 2
def PIN_PA3 : Nat := 3
def PIN_PA4 : Nat := 4
def PIN_PA5 : Nat := 5
def PIN_PA6 : Nat := 6
def PIN_PA7 : Nat := 7
def PIN_PB0 : Nat := 8
def PIN_PB1 : Nat := 9
def PIN_PB2 : Nat := 10
def PIN_PB3 : Nat := 11
def PIN_PC0 : Nat := 12
def PIN_PC1 : Nat := 13
def PIN_PC2 : Nat := 14
def PIN_PC3 : Nat := 17
def PIN_PC4 : Nat := 15
def PIN_PC5 : Nat := 16

def PIN_A0 : Nat := PIN_PA3
def PIN_A1 : Nat := PIN_PA4
def PIN_A2 : Nat := PIN_PA5
def PIN_A3 : Nat := PIN_PA6
def PIN_A4 : Nat := PIN_PA7
def PIN_A5 : Nat := PIN_PB0
def PIN_A6 : Nat := PIN_PB1
def PIN_A7 : Nat := PIN_PB2
def PIN_A8 : Nat := PIN_PB3
def PIN_A9 : Nat := PIN_PC0
def PIN_A10 : Nat := PIN_PC1
def PIN_A11 : Nat := PIN_PC2

/-! ## Derivation macros (lines 88-101) -/

/-- Objects that a pointer result of the pin-change macros can point to: the
three mask registers, by name, and the byte at a given data address, which is
what an integer value converted to a pointer points to. -/
inductive Reg where
  | PCMSK0
  | PCMSK1
  | PCMSK2
  | atAddress (a : Nat)
  deriving DecidableEq, Repr

/-- The null pointer `((uint8_t *)NULL)`. -/
def NULL : Option Reg := none

/-- An integer value converted to `uint8_t *`, as the conditional operator does
with its integer operand when the other operand is a pointer: the value 0 is
the null pointer, any other value is the address it names. -/
def valueToPointer (v : Nat) : Option Reg :=
  if v = 0 then NULL else some (Reg.atAddress v)

/-- Source text: `((((p) >= 0) && ((p) < 17)) ? (GIFR) : ((uint8_t *)NULL))`.
The true branch is `(GIFR)`, not `(&GIFR)`: it reads the register, and the
byte read, `gifr`, is what the conditional turns into a pointer. -/
def digitalPinToPCICR (gifr : Nat) (p : Int) : Option Reg :=
  if p ≥ 0 ∧ p < 17 then valueToPointer gifr else NULL

/-- Source text: `((p) >= 0 && (p) < 18) ? ((p) < 8 ? (&PCMSK0) : ((p) > 12 ? (&PCMSK2) : (&PCMSK1))) : ((uint8_t *)NULL)` -/
def digitalPinToPCMSK (p : Int) : Option Reg :=
  if p ≥ 0 ∧ p < 18 then
    (if p < 8 then some Reg.PCMSK0
     else (if p > 12 then some Reg.PCMSK2 else some Reg.PCMSK1))
  else NULL

/-- Source text: `((p) < 8 ? (p) : ((p) < 12 ? ((p) - 8) : ((p) < 15 ? ((p) - 12) : ((p) == 17 ? 3 : (p) - 11))))` -/
def digitalPinToPCMSKbit (p : Int) : Int :=
  if p < 8 then p
  else (if p < 12 then p - 8
        else (if p < 15 then p - 12
              else (if p = 17 then 3 else p - 11)))

/-- Source text: `((p)==PIN_PC2 ? 0 : NOT_AN_INTERRUPT)` -/
def digitalPinToInterrupt (K : CoreTags) (p : Int) : Int :=
  if p = (PIN_PC2 : Int) then 0 else K.NOT_AN_INTERRUPT

/-- Source text: `((p < 12) ? ((p) + 3) : -1)` -/
def analogInputToDigitalPin (p : Int) : Int :=
  if p < 12 then p + 3 else -1

/-- Source text: `((((p) > 3) && ((p) < 15)) ? (p) - 3: -1)` -/
def digitalPinToAnalogInput (p : Int) : Int :=
  if p > 3 ∧ p < 15 then p - 3 else -1

/-- Source text: `((p) == PIN_PA5 || (p) == PIN_PA6 || (p) == PIN_PB3 || (p) == PIN_PC0)` -/
def digitalPinHasPWM (p : Int) : Bool :=
  p == (PIN_PA5 : Int) || p == (PIN_PA6 : Int) || p == (PIN_PB3 : Int) || p == (PIN_PC0 : Int)

/-! ## Lookup tables (lines 302-363) -/

def digital_pin_to_port_PGM (K : CoreTags) : List Nat :=
  [ K.PA, -- 0
    K.PA,
    K.PA,
    K.PA,
    K.PA,
    K.PA,
    K.PA,
    K.PA,
    K.PB, -- 8
    K.PB,
    K.PB,
    K.PB,
    K.PC, -- 12
    K.PC,
    K.PC,
    K.PC,
    K.PC,
    K.PC -- 17 = RESET
  ]

def digital_pin_to_bit_mask_PGM : List Nat :=
  [ _BV 0, -- 0
    _BV 1,
    _BV 2,
    _BV 3,
    _BV 4,
    _BV 5,
    _BV 6,
    _BV 7,
    _BV 0, -- 8
    _BV 1,
    _BV 2,
    _BV 3,
    _BV 0, -- 12
    _BV 1,
    _BV 2,
    _BV 4, -- SKIP RESET
    _BV 5,
    _BV 3 -- 17 = RESET
  ]

def digital_pin_to_timer_PGM (K : CoreTags) : List Nat :=
  [ K.NOT_ON_TIMER, -- 0
    K.NOT_ON_TIMER,
    K.NOT_ON_TIMER,
    K.NOT_ON_TIMER,
    K.NOT_ON_TIMER,
    K.TIMER0B, -- 5
    K.TIMER1B, -- 6
    K.NOT_ON_TIMER,
    K.NOT_ON_TIMER,
    K.NOT_ON_TIMER,
    K.NOT_ON_TIMER,
    K.TIMER1A, -- 11
    K.TIMER0A, -- 12
    K.NOT_ON_TIMER,
    K.NOT_ON_TIMER,
    K.NOT_ON_TIMER,
    K.NOT_ON_TIMER,
    K.NOT_ON_TIMER -- 17 = RESET
  ]

/-! ## Further macros and constants (lines 89, 153-162, 180-182, 218-234) -/

/-- Source text: `((p) < 8 ? 3 : (p) < 12 ? 4 : 5`.  The source line leaves the
outer parenthesis open; the conditional is embedded as the token sequence
reads once that parenthesis is closed right after the `5`. -/
def digitalPinToPCICRbit (p : Int) : Int :=
  if p < 8 then 3 else (if p < 12 then 4 else 5)

def PIN_TIMER_OC0A : Nat := PIN_PC0
def PIN_TIMER_OC0B : Nat := PIN_PA5
def PIN_TIMER_T0 : Nat := PIN_PA4
def PIN_TIMER_OC1A : Nat := PIN_PB3
def PIN_TIMER_OC1B : Nat := PIN_PA6
def PIN_TIMER_T1 : Nat := PIN_PA3
def PIN_TIMER_ICP1 : Nat := PIN_PC1

/-- Bit number `PINB1` of the chip header. -/
def PINB1 : Nat := 1
/-- Bit number `PINB2` of the chip header. -/
def PINB2 : Nat := 2
/-- Bit number `PINC1` of the chip header. -/
def PINC1 : Nat := 1

def USI_DI : Nat := PIN_PB1
def USI_DO : Nat := PIN_PB2
def USI_SCK : Nat := PIN_PC1
def SS : Nat := PIN_PC2

def USI_CLOCK_BIT : Nat := PINC1
def USI_DO_BIT : Nat := PINB2
def USI_DI_BIT : Nat := PINB1

/-! ## Port register tables (lines 274-300) -/

/-- Parameters of the embedding: the data-space addresses of the port
registers, as the chip header fixes them (`R.DDRA` stands for `&DDRA`). -/
structure IoRegs where
  DDRA : Nat
  DDRB : Nat
  DDRC : Nat
  PORTA : Nat
  PORTB : Nat
  PORTC : Nat
  PUEA : Nat
  PUEB : Nat
  PUEC : Nat
  PINA : Nat
  PINB : Nat
  PINC : Nat

/-- One admissible choice of register addresses, used in witnesses. -/
def sampleRegs : IoRegs := IoRegs.mk 0x30 0x2C 0x28 0x31 0x2D 0x29 0x32 0x2E 0x2A 0x2F 0x2B 0x27

/-- The cast chain `(uint8_t)(uint16_t) &REG` applied to an address. -/
def addrByte (addr : Nat) : Nat := (addr % 2 ^ 16) % 2 ^ 8

def port_to_mode_PGM (K : CoreTags) (R : IoRegs) : List Nat :=
  [ K.NOT_A_PORT,
    addrByte R.DDRA,
    addrByte R.DDRB,
    addrByte R.DDRC
  ]

def port_to_output_PGM (K : CoreTags) (R : IoRegs) : List Nat :=
  [ K.NOT_A_PORT,
    addrByte R.PORTA,
    addrByte R.PORTB,
    addrByte R.PORTC
  ]

def port_to_pullup_PGM (K : CoreTags) (R : IoRegs) : List Nat :=
  [ K.NOT_A_PORT,
    addrByte R.PUEA,
    addrByte R.PUEB,
    addrByte R.PUEC
  ]

def port_to_input_PGM (K : CoreTags) (R : IoRegs) : List Nat :=
  [ K.NOT_A_PORT,
    addrByte R.PINA,
    addrByte R.PINB,
    addrByte R.PINC
  ]

/-! ## Theorems -/

/-- C1: every pin `p < 18` has a single-bit mask `1 <<< k` with `k < 8`, and
two pins `p, q < 18` with the same port entry and the same mask entry are the
same pin, provided the three port tags are pairwise different. -/
theorem pin_port_bit_unique (K : CoreTags)
    (hAB : K.PA ≠ K.PB) (hAC : K.PA ≠ K.PC) (hBC : K.PB ≠ K.PC)
    (p q : Nat) (hp : p < NUM_DIGITAL_PINS) (hq : q < NUM_DIGITAL_PINS) :
    (∃ k, k < 8 ∧ digital_pin_to_bit_mask_PGM[p]? = some (1 <<< k)) ∧
    ((digital_pin_to_port_PGM K)[p]? = (digital_pin_to_port_PGM K)[q]? →
      digital_pin_to_bit_mask_PGM[p]? = digital_pin_to_bit_mask_PGM[q]? →
      p = q) := by
  have hBA : K.PB ≠ K.PA := fun h => hAB h.symm
  have hCA : K.PC ≠ K.PA := fun h => hAC h.symm
  have hCB : K.PC ≠ K.PB := fun h => hBC h.symm
  unfold NUM_DIGITAL_PINS at hp hq
  constructor
  · interval_cases p
    · exact ⟨0, by decide, rfl⟩
    · exact ⟨1, by decide, rfl⟩
    · exact ⟨2, by decide, rfl⟩
    · exact ⟨3, by decide, rfl⟩
    · exact ⟨4, by decide, rfl⟩
    · exact ⟨5, by decide, rfl⟩
    · exact ⟨6, by decide, rfl⟩
    · exact ⟨7, by decide, rfl⟩
    · exact ⟨0, by decide, rfl⟩
    · exact ⟨1, by decide, rfl⟩
    · exact ⟨2, by decide, rfl⟩
    · exact ⟨3, by decide, rfl⟩
    · exact ⟨0, by decide, rfl⟩
    · exact ⟨1, by decide, rfl⟩
    · exact ⟨2, by decide, rfl⟩
    · exact ⟨4, by decide, rfl⟩
    · exact ⟨5, by decide, rfl⟩
    · exact ⟨3, by decide, rfl⟩
  · interval_cases p <;> interval_cases q <;>
      first
      | (intro _ _; rfl)
      | (intro _ h; exact absurd h (by decide))
      | (intro h _; exact absurd (Option.some.inj h) hAB)
      | (intro h _; exact absurd (Option.some.inj h) hAC)
      | (intro h _; exact absurd (Option.some.inj h) hBC)
      | (intro h _; exact absurd (Option.some.inj h) hBA)
      | (intro h _; exact absurd (Option.some.inj h) hCA)
      | (intro h _; exact absurd (Option.some.inj h) hCB)

/-- Witness of C1 at the sample tags and the pins 15 and 17. -/
theorem pin_port_bit_unique_witness :
    (sampleTags.PA ≠ sampleTags.PB ∧ sampleTags.PA ≠ sampleTags.PC ∧
      sampleTags.PB ≠ sampleTags.PC ∧ 15 < NUM_DIGITAL_PINS ∧ 17 < NUM_DIGITAL_PINS) ∧
    ((∃ k, k < 8 ∧ digital_pin_to_bit_mask_PGM[15]? = some (1 <<< k)) ∧
     ((digital_pin_to_port_PGM sampleTags)[15]? = (digital_pin_to_port_PGM sampleTags)[17]? →
       digital_pin_to_bit_mask_PGM[15]? = digital_pin_to_bit_mask_PGM[17]? →
       15 = 17)) :=
  ⟨⟨by decide, by decide, by decide, by decide, by decide⟩,
   pin_port_bit_unique sampleTags (by decide) (by decide) (by decide) 15 17
     (by decide) (by decide)⟩

/-- C2: for each of the 18 named pin constants `PIN_Pxn` the port table holds
the tag of port `x` and the mask table holds `1 <<< n`. -/
theorem named_pin_tables_agree (K : CoreTags) :
    ((digital_pin_to_port_PGM K)[PIN_PA0]? = some K.PA ∧ digital_pin_to_bit_mask_PGM[PIN_PA0]? = some (1 <<< 0)) ∧
    ((digital_pin_to_port_PGM K)[PIN_PA1]? = some K.PA ∧ digital_pin_to_bit_mask_PGM[PIN_PA1]? = some (1 <<< 1)) ∧
    ((digital_pin_to_port_PGM K)[PIN_PA2]? = some K.PA ∧ digital_pin_to_bit_mask_PGM[PIN_PA2]? = some (1 <<< 2)) ∧
    ((digital_pin_to_port_PGM K)[PIN_PA3]? = some K.PA ∧ digital_pin_to_bit_mask_PGM[PIN_PA3]? = some (1 <<< 3)) ∧
    ((digital_pin_to_port_PGM K)[PIN_PA4]? = some K.PA ∧ digital_pin_to_bit_mask_PGM[PIN_PA4]? = some (1 <<< 4)) ∧
    ((digital_pin_to_port_PGM K)[PIN_PA5]? = some K.PA ∧ digital_pin_to_bit_mask_PGM[PIN_PA5]? = some (1 <<< 5)) ∧
    ((digital_pin_to_port_PGM K)[PIN_PA6]? = some K.PA ∧ digital_pin_to_bit_mask_PGM[PIN_PA6]? = some (1 <<< 6)) ∧
    ((digital_pin_to_port_PGM K)[PIN_PA7]? = some K.PA ∧ digital_pin_to_bit_mask_PGM[PIN_PA7]? = some (1 <<< 7)) ∧
    ((digital_pin_to_port_PGM K)[PIN_PB0]? = some K.PB ∧ digital_pin_to_bit_mask_PGM[PIN_PB0]? = some (1 <<< 0)) ∧
    ((digital_pin_to_port_PGM K)[PIN_PB1]? = some K.PB ∧ digital_pin_to_bit_mask_PGM[PIN_PB1]? = some (1 <<< 1)) ∧
    ((digital_pin_to_port_PGM K)[PIN_PB2]? = some K.PB ∧ digital_pin_to_bit_mask_PGM[PIN_PB2]? = some (1 <<< 2)) ∧
    ((digital_pin_to_port_PGM K)[PIN_PB3]? = some K.PB ∧ digital_pin_to_bit_mask_PGM[PIN_PB3]? = some (1 <<< 3)) ∧
    ((digital_pin_to_port_PGM K)[PIN_PC0]? = some K.PC ∧ digital_pin_to_bit_mask_PGM[PIN_PC0]? = some (1 <<< 0)) ∧
    ((digital_pin_to_port_PGM K)[PIN_PC1]? = some K.PC ∧ digital_pin_to_bit_mask_PGM[PIN_PC1]? = some (1 <<< 1)) ∧
    ((digital_pin_to_port_PGM K)[PIN_PC2]? = some K.PC ∧ digital_pin_to_bit_mask_PGM[PIN_PC2]? = some (1 <<< 2)) ∧
    ((digital_pin_to_port_PGM K)[PIN_PC3]? = some K.PC ∧ digital_pin_to_bit_mask_PGM[PIN_PC3]? = some (1 <<< 3)) ∧
    ((digital_pin_to_port_PGM K)[PIN_PC4]? = some K.PC ∧ digital_pin_to_bit_mask_PGM[PIN_PC4]? = some (1 <<< 4)) ∧
    ((digital_pin_to_port_PGM K)[PIN_PC5]? = some K.PC ∧ digital_pin_to_bit_mask_PGM[PIN_PC5]? = some (1 <<< 5)) ∧
    (PIN_PC4 = 15 ∧ PIN_PC5 = 16 ∧ PIN_PC3 = 17) := by
  refine ⟨⟨rfl, rfl⟩, ⟨rfl, rfl⟩, ⟨rfl, rfl⟩, ⟨rfl, rfl⟩, ⟨rfl, rfl⟩, ⟨rfl, rfl⟩,
    ⟨rfl, rfl⟩, ⟨rfl, rfl⟩, ⟨rfl, rfl⟩, ⟨rfl, rfl⟩, ⟨rfl, rfl⟩, ⟨rfl, rfl⟩,
    ⟨rfl, rfl⟩, ⟨rfl, rfl⟩, ⟨rfl, rfl⟩, ⟨rfl, rfl⟩, ⟨rfl, rfl⟩, ⟨rfl, rfl⟩,
    ⟨rfl, rfl, rfl⟩⟩

/-- C3: the round trip fails at the first analog pin.  `PIN_A0` is pin 3, the
guard `p > 3` of `digitalPinToAnalogInput` rejects it, so pin 3 converts to
the sentinel `-1` and back to pin 2; and channel 0 converts to pin 3 and back
to `-1` instead of 0. -/
theorem analog_round_trip_fails_at_A0 :
    PIN_A0 = 3 ∧
    digitalPinToAnalogInput (PIN_A0 : Int) = -1 ∧
    analogInputToDigitalPin (digitalPinToAnalogInput (PIN_A0 : Int)) = 2 ∧
    analogInputToDigitalPin (digitalPinToAnalogInput (PIN_A0 : Int)) ≠ (PIN_A0 : Int) ∧
    analogInputToDigitalPin 0 = (PIN_A0 : Int) ∧
    digitalPinToAnalogInput (analogInputToDigitalPin 0) = -1 ∧
    digitalPinToAnalogInput (analogInputToDigitalPin 0) ≠ 0 := by
  decide

/-- C4: the pins below 18 for which `digitalPinHasPWM` holds are exactly the
four pins 5, 6, 11 and 12, and, when the four timer tags differ from
`NOT_ON_TIMER`, a pin `p < 18` has PWM if and only if its entry in the timer
table is a tag other than `NOT_ON_TIMER`. -/
theorem pwm_pins_match_timer_table (K : CoreTags)
    (h0A : K.TIMER0A ≠ K.NOT_ON_TIMER) (h0B : K.TIMER0B ≠ K.NOT_ON_TIMER)
    (h1A : K.TIMER1A ≠ K.NOT_ON_TIMER) (h1B : K.TIMER1B ≠ K.NOT_ON_TIMER) :
    (List.range NUM_DIGITAL_PINS).filter (fun p => digitalPinHasPWM (p : Int))
      = [PIN_PA5, PIN_PA6, PIN_PB3, PIN_PC0] ∧
    ((List.range NUM_DIGITAL_PINS).filter (fun p => digitalPinHasPWM (p : Int))).length = 4 ∧
    ∀ p : Nat, p < NUM_DIGITAL_PINS →
      (digitalPinHasPWM (p : Int) = true ↔
        ∃ t, (digital_pin_to_timer_PGM K)[p]? = some t ∧ t ≠ K.NOT_ON_TIMER) := by
  refine ⟨by decide, by decide, ?_⟩
  intro p hp
  unfold NUM_DIGITAL_PINS at hp
  interval_cases p <;>
    first
    | exact ⟨fun _ => ⟨_, rfl, h0A⟩, fun _ => by decide⟩
    | exact ⟨fun _ => ⟨_, rfl, h0B⟩, fun _ => by decide⟩
    | exact ⟨fun _ => ⟨_, rfl, h1A⟩, fun _ => by decide⟩
    | exact ⟨fun _ => ⟨_, rfl, h1B⟩, fun _ => by decide⟩
    | exact ⟨fun h => absurd h (by decide),
        fun h => by
          obtain ⟨t, ht, hne⟩ := h
          exact absurd (Option.some.inj ht).symm hne⟩

/-- Witness of C4 at the sample tags. -/
theorem pwm_pins_match_timer_table_witness :
    (sampleTags.TIMER0A ≠ sampleTags.NOT_ON_TIMER ∧ sampleTags.TIMER0B ≠ sampleTags.NOT_ON_TIMER ∧
      sampleTags.TIMER1A ≠ sampleTags.NOT_ON_TIMER ∧ sampleTags.TIMER1B ≠ sampleTags.NOT_ON_TIMER) ∧
    ((List.range NUM_DIGITAL_PINS).filter (fun p => digitalPinHasPWM (p : Int))
      = [PIN_PA5, PIN_PA6, PIN_PB3, PIN_PC0] ∧
    ((List.range NUM_DIGITAL_PINS).filter (fun p => digitalPinHasPWM (p : Int))).length = 4 ∧
    ∀ p : Nat, p < NUM_DIGITAL_PINS →
      (digitalPinHasPWM (p : Int) = true ↔
        ∃ t, (digital_pin_to_timer_PGM sampleTags)[p]? = some t ∧
          t ≠ sampleTags.NOT_ON_TIMER)) :=
  ⟨⟨by decide, by decide, by decide, by decide⟩,
   pwm_pins_match_timer_table sampleTags (by decide) (by decide) (by decide) (by decide)⟩

/-- C5: for an integer `p` outside the pin domain (`p < 0` or `p ≥ 18`) both
`digitalPinToPCICR p` and `digitalPinToPCMSK p` are the null pointer, whatever
byte the register `GIFR` holds. -/
theorem pcint_registers_null_outside_domain (gifr : Nat) (p : Int)
    (hp : p < 0 ∨ p ≥ (NUM_DIGITAL_PINS : Int)) :
    digitalPinToPCICR gifr p = NULL ∧ digitalPinToPCMSK p = NULL := by
  have h18 : ((NUM_DIGITAL_PINS : Nat) : Int) = 18 := rfl
  rw [h18] at hp
  constructor
  · unfold digitalPinToPCICR
    rw [if_neg]
    omega
  · unfold digitalPinToPCMSK
    rw [if_neg]
    omega

/-- Witness of C5 at `p = 18`, the first integer past the last pin, with the
byte `0x20` in `GIFR`. -/
theorem pcint_registers_null_outside_domain_witness :
    ((18 : Int) < 0 ∨ (18 : Int) ≥ (NUM_DIGITAL_PINS : Int)) ∧
    (digitalPinToPCICR 0x20 18 = NULL ∧ digitalPinToPCMSK 18 = NULL) :=
  ⟨Or.inr (by decide), pcint_registers_null_outside_domain 0x20 18 (Or.inr (by decide))⟩

/-- C6: when `NOT_AN_INTERRUPT` is not 0, `digitalPinToInterrupt p` is 0 for
exactly one integer `p`, namely `PIN_PC2 = 14`, which the tables place on port
C with mask `1 <<< 2`; for every other integer it is `NOT_AN_INTERRUPT`. -/
theorem external_interrupt_only_on_PC2 (K : CoreTags) (hK : K.NOT_AN_INTERRUPT ≠ 0) :
    (∀ p : Int, digitalPinToInterrupt K p = 0 ↔ p = (PIN_PC2 : Int)) ∧
    PIN_PC2 = 14 ∧
    (digital_pin_to_port_PGM K)[PIN_PC2]? = some K.PC ∧
    digital_pin_to_bit_mask_PGM[PIN_PC2]? = some (1 <<< 2) ∧
    (∀ p : Int, p ≠ (PIN_PC2 : Int) → digitalPinToInterrupt K p = K.NOT_AN_INTERRUPT) := by
  refine ⟨?_, rfl, rfl, rfl, ?_⟩
  · intro p
    unfold digitalPinToInterrupt
    constructor
    · intro h
      by_cases hp : p = (PIN_PC2 : Int)
      · exact hp
      · rw [if_neg hp] at h
        exact absurd h hK
    · intro hp
      rw [if_pos hp]
  · intro p hp
    unfold digitalPinToInterrupt
    rw [if_neg hp]

/-- Witness of C6 at the sample tags, whose interrupt sentinel is `-1`. -/
theorem external_interrupt_only_on_PC2_witness :
    sampleTags.NOT_AN_INTERRUPT ≠ 0 ∧
    ((∀ p : Int, digitalPinToInterrupt sampleTags p = 0 ↔ p = (PIN_PC2 : Int)) ∧
     PIN_PC2 = 14 ∧
     (digital_pin_to_port_PGM sampleTags)[PIN_PC2]? = some sampleTags.PC ∧
     digital_pin_to_bit_mask_PGM[PIN_PC2]? = some (1 <<< 2) ∧
     (∀ p : Int, p ≠ (PIN_PC2 : Int) →
       digitalPinToInterrupt sampleTags p = sampleTags.NOT_AN_INTERRUPT)) :=
  ⟨by decide, external_interrupt_only_on_PC2 sampleTags (by decide)⟩

/-- C7: the reset pin `PIN_PC3 = 17` is on port C, has no PWM, has
`NOT_ON_TIMER` in the timer table and is not the external-interrupt pin. -/
theorem reset_pin_facts (K : CoreTags) :
    PIN_PC3 = 17 ∧
    (digital_pin_to_port_PGM K)[PIN_PC3]? = some K.PC ∧
    digitalPinHasPWM (PIN_PC3 : Int) = false ∧
    (digital_pin_to_timer_PGM K)[PIN_PC3]? = some K.NOT_ON_TIMER ∧
    digitalPinToInterrupt K (PIN_PC3 : Int) = K.NOT_AN_INTERRUPT := by
  refine ⟨rfl, rfl, by decide, rfl, ?_⟩
  unfold digitalPinToInterrupt
  rw [if_neg (by decide)]

/-- C8: for each analog channel `n` from 0 to 11, `analogInputToDigitalPin n`
is the named constant `PIN_An`. -/
theorem analog_channel_to_named_pin :
    analogInputToDigitalPin 0 = (PIN_A0 : Int) ∧
    analogInputToDigitalPin 1 = (PIN_A1 : Int) ∧
    analogInputToDigitalPin 2 = (PIN_A2 : Int) ∧
    analogInputToDigitalPin 3 = (PIN_A3 : Int) ∧
    analogInputToDigitalPin 4 = (PIN_A4 : Int) ∧
    analogInputToDigitalPin 5 = (PIN_A5 : Int) ∧
    analogInputToDigitalPin 6 = (PIN_A6 : Int) ∧
    analogInputToDigitalPin 7 = (PIN_A7 : Int) ∧
    analogInputToDigitalPin 8 = (PIN_A8 : Int) ∧
    analogInputToDigitalPin 9 = (PIN_A9 : Int) ∧
    analogInputToDigitalPin 10 = (PIN_A10 : Int) ∧
    analogInputToDigitalPin 11 = (PIN_A11 : Int) ∧
    NUM_ANALOG_INPUTS = 12 ∧
    (PIN_A0 = PIN_PA3 ∧ PIN_A4 = PIN_PA7 ∧ PIN_A5 = PIN_PB0 ∧ PIN_A8 = PIN_PB3 ∧
      PIN_A9 = PIN_PC0 ∧ PIN_A11 = PIN_PC2) := by
  decide

/-- C9: at the negative channel number `-1` the macro
`analogInputToDigitalPin` does not give the sentinel: its only guard is
`p < 12`, so it returns `-1 + 3 = 2`, the number of a valid pin. -/
theorem analogInputToDigitalPin_negative_channel :
    analogInputToDigitalPin (-1) = 2 ∧
    analogInputToDigitalPin (-1) ≠ -1 ∧
    (0 ≤ analogInputToDigitalPin (-1) ∧
      analogInputToDigitalPin (-1) < (NUM_DIGITAL_PINS : Int)) := by
  decide

/-- C10: for an integer `p` that is none of `PIN_A0`, ..., `PIN_A11`,
`digitalPinToAnalogInput p` is the sentinel `-1`. -/
theorem digitalPinToAnalogInput_sentinel (p : Int)
    (hp : ∀ a ∈ [PIN_A0, PIN_A1, PIN_A2, PIN_A3, PIN_A4, PIN_A5,
                 PIN_A6, PIN_A7, PIN_A8, PIN_A9, PIN_A10, PIN_A11], p ≠ (a : Int)) :
    digitalPinToAnalogInput p = -1 := by
  unfold digitalPinToAnalogInput
  rw [if_neg]
  intro h
  have h4 := hp PIN_A1 (by simp)
  have h5 := hp PIN_A2 (by simp)
  have h6 := hp PIN_A3 (by simp)
  have h7 := hp PIN_A4 (by simp)
  have h8 := hp PIN_A5 (by simp)
  have h9 := hp PIN_A6 (by simp)
  have h10 := hp PIN_A7 (by simp)
  have h11 := hp PIN_A8 (by simp)
  have h12 := hp PIN_A9 (by simp)
  have h13 := hp PIN_A10 (by simp)
  have h14 := hp PIN_A11 (by simp)
  have e4 : ((PIN_A1 : Nat) : Int) = 4 := rfl
  have e5 : ((PIN_A2 : Nat) : Int) = 5 := rfl
  have e6 : ((PIN_A3 : Nat) : Int) = 6 := rfl
  have e7 : ((PIN_A4 : Nat) : Int) = 7 := rfl
  have e8 : ((PIN_A5 : Nat) : Int) = 8 := rfl
  have e9 : ((PIN_A6 : Nat) : Int) = 9 := rfl
  have e10 : ((PIN_A7 : Nat) : Int) = 10 := rfl
  have e11 : ((PIN_A8 : Nat) : Int) = 11 := rfl
  have e12 : ((PIN_A9 : Nat) : Int) = 12 := rfl
  have e13 : ((PIN_A10 : Nat) : Int) = 13 := rfl
  have e14 : ((PIN_A11 : Nat) : Int) = 14 := rfl
  rw [e4] at h4
  rw [e5] at h5
  rw [e6] at h6
  rw [e7] at h7
  rw [e8] at h8
  rw [e9] at h9
  rw [e10] at h10
  rw [e11] at h11
  rw [e12] at h12
  rw [e13] at h13
  rw [e14] at h14
  omega

/-- Witness of C10 at the reset pin 17, which carries no analog channel. -/
theorem digitalPinToAnalogInput_sentinel_witness :
    (∀ a ∈ [PIN_A0, PIN_A1, PIN_A2, PIN_A3, PIN_A4, PIN_A5,
            PIN_A6, PIN_A7, PIN_A8, PIN_A9, PIN_A10, PIN_A11], (17 : Int) ≠ (a : Int)) ∧
    digitalPinToAnalogInput 17 = -1 :=
  ⟨by decide, digitalPinToAnalogInput_sentinel 17 (by decide)⟩

/-- C11: the 18 named pin constants are pairwise distinct and their values are
exactly the numbers below `NUM_DIGITAL_PINS = 18`. -/
theorem named_pins_enumerate_domain :
    [PIN_PA0, PIN_PA1, PIN_PA2, PIN_PA3, PIN_PA4, PIN_PA5, PIN_PA6, PIN_PA7,
     PIN_PB0, PIN_PB1, PIN_PB2, PIN_PB3,
     PIN_PC0, PIN_PC1, PIN_PC2, PIN_PC3, PIN_PC4, PIN_PC5].Nodup ∧
    [PIN_PA0, PIN_PA1, PIN_PA2, PIN_PA3, PIN_PA4, PIN_PA5, PIN_PA6, PIN_PA7,
     PIN_PB0, PIN_PB1, PIN_PB2, PIN_PB3,
     PIN_PC0, PIN_PC1, PIN_PC2, PIN_PC3, PIN_PC4, PIN_PC5].length = 18 ∧
    NUM_DIGITAL_PINS = 18 ∧
    (∀ n : Nat,
      n ∈ [PIN_PA0, PIN_PA1, PIN_PA2, PIN_PA3, PIN_PA4, PIN_PA5, PIN_PA6, PIN_PA7,
           PIN_PB0, PIN_PB1, PIN_PB2, PIN_PB3,
           PIN_PC0, PIN_PC1, PIN_PC2, PIN_PC3, PIN_PC4, PIN_PC5] ↔
      n < NUM_DIGITAL_PINS) := by
  refine ⟨by decide, rfl, rfl, ?_⟩
  intro n
  constructor
  · intro h
    simp only [PIN_PA0, PIN_PA1, PIN_PA2, PIN_PA3, PIN_PA4, PIN_PA5, PIN_PA6, PIN_PA7,
      PIN_PB0, PIN_PB1, PIN_PB2, PIN_PB3, PIN_PC0, PIN_PC1, PIN_PC2, PIN_PC3, PIN_PC4,
      PIN_PC5, List.mem_cons, List.mem_singleton, List.not_mem_nil, or_false] at h
    unfold NUM_DIGITAL_PINS
    omega
  · intro h
    unfold NUM_DIGITAL_PINS at h
    interval_cases n <;> decide

/-- C12: the channel numbers `0x0C`, `0x0D` and `0x0E` of the special analog
channels convert to the sentinel `-1`, and no pin `p < 18` converts to one of
them. -/
theorem special_channels_have_no_pin (p : Nat) (hp : p < NUM_DIGITAL_PINS) :
    (analogInputToDigitalPin 0x0C = -1 ∧
     analogInputToDigitalPin 0x0D = -1 ∧
     analogInputToDigitalPin 0x0E = -1) ∧
    (digitalPinToAnalogInput (p : Int) ≠ 0x0C ∧
     digitalPinToAnalogInput (p : Int) ≠ 0x0D ∧
     digitalPinToAnalogInput (p : Int) ≠ 0x0E) := by
  unfold NUM_DIGITAL_PINS at hp
  refine ⟨by decide, ?_⟩
  unfold digitalPinToAnalogInput
  split_ifs with h <;> omega

/-- Witness of C12 at pin 14, the pin with the highest analog channel. -/
theorem special_channels_have_no_pin_witness :
    14 < NUM_DIGITAL_PINS ∧
    ((analogInputToDigitalPin 0x0C = -1 ∧
      analogInputToDigitalPin 0x0D = -1 ∧
      analogInputToDigitalPin 0x0E = -1) ∧
     (digitalPinToAnalogInput ((14 : Nat) : Int) ≠ 0x0C ∧
      digitalPinToAnalogInput ((14 : Nat) : Int) ≠ 0x0D ∧
      digitalPinToAnalogInput ((14 : Nat) : Int) ≠ 0x0E)) :=
  ⟨by decide, special_channels_have_no_pin 14 (by decide)⟩

/-- C13: at `PIN_PC0 = 12` the mask register is not the one of the pin's port:
the port table places pin 12 on port C, and `digitalPinToPCMSK 12` is
`PCMSK1`, the register of port B, because the inner test is `p > 12`. -/
theorem digitalPinToPCMSK_PC0_gives_port_B_register (K : CoreTags) :
    PIN_PC0 = 12 ∧
    (digital_pin_to_port_PGM K)[PIN_PC0]? = some K.PC ∧
    digitalPinToPCMSK (PIN_PC0 : Int) = some Reg.PCMSK1 ∧
    digitalPinToPCMSK (PIN_PC0 : Int) ≠ some Reg.PCMSK2 ∧
    digitalPinToPCMSK (PIN_PC1 : Int) = some Reg.PCMSK2 := by
  refine ⟨rfl, rfl, by decide, by decide, by decide⟩

/-- C14: for every pin `p < 18`, `digitalPinToPCMSKbit p` is a bit number
`0 ≤ k`, and `1 <<< k` is the pin's entry in the mask table. -/
theorem pcmsk_bit_matches_mask_table (p : Nat) (hp : p < NUM_DIGITAL_PINS) :
    0 ≤ digitalPinToPCMSKbit (p : Int) ∧
    digital_pin_to_bit_mask_PGM[p]? =
      some (1 <<< (digitalPinToPCMSKbit (p : Int)).toNat) := by
  unfold NUM_DIGITAL_PINS at hp
  interval_cases p <;> decide

/-- Witness of C14 at the reset pin 17, whose bit number is 3. -/
theorem pcmsk_bit_matches_mask_table_witness :
    17 < NUM_DIGITAL_PINS ∧
    (0 ≤ digitalPinToPCMSKbit ((17 : Nat) : Int) ∧
     digital_pin_to_bit_mask_PGM[17]? =
       some (1 <<< (digitalPinToPCMSKbit ((17 : Nat) : Int)).toNat)) :=
  ⟨by decide, pcmsk_bit_matches_mask_table 17 (by decide)⟩

/-- C15: with pairwise different port tags, for every pin `p < 18` the value of
`digitalPinToPCICRbit p` is 3 when the port table says `PA`, 4 when it says
`PB` and 5 when it says `PC`. -/
theorem pcicr_bit_follows_port (K : CoreTags)
    (hAB : K.PA ≠ K.PB) (hAC : K.PA ≠ K.PC) (hBC : K.PB ≠ K.PC)
    (p : Nat) (hp : p < NUM_DIGITAL_PINS) :
    ((digital_pin_to_port_PGM K)[p]? = some K.PA → digitalPinToPCICRbit (p : Int) = 3) ∧
    ((digital_pin_to_port_PGM K)[p]? = some K.PB → digitalPinToPCICRbit (p : Int) = 4) ∧
    ((digital_pin_to_port_PGM K)[p]? = some K.PC → digitalPinToPCICRbit (p : Int) = 5) := by
  have hBA : K.PB ≠ K.PA := fun h => hAB h.symm
  have hCA : K.PC ≠ K.PA := fun h => hAC h.symm
  have hCB : K.PC ≠ K.PB := fun h => hBC h.symm
  unfold NUM_DIGITAL_PINS at hp
  interval_cases p <;> refine ⟨?_, ?_, ?_⟩ <;>
    first
    | (intro _; decide)
    | (intro h; exact absurd (Option.some.inj h) hAB)
    | (intro h; exact absurd (Option.some.inj h) hAC)
    | (intro h; exact absurd (Option.some.inj h) hBC)
    | (intro h; exact absurd (Option.some.inj h) hBA)
    | (intro h; exact absurd (Option.some.inj h) hCA)
    | (intro h; exact absurd (Option.some.inj h) hCB)

/-- Witness of C15 at the sample tags and pin 12, the first pin of port C. -/
theorem pcicr_bit_follows_port_witness :
    (sampleTags.PA ≠ sampleTags.PB ∧ sampleTags.PA ≠ sampleTags.PC ∧
      sampleTags.PB ≠ sampleTags.PC ∧ 12 < NUM_DIGITAL_PINS) ∧
    (((digital_pin_to_port_PGM sampleTags)[12]? = some sampleTags.PA →
        digitalPinToPCICRbit ((12 : Nat) : Int) = 3) ∧
     ((digital_pin_to_port_PGM sampleTags)[12]? = some sampleTags.PB →
        digitalPinToPCICRbit ((12 : Nat) : Int) = 4) ∧
     ((digital_pin_to_port_PGM sampleTags)[12]? = some sampleTags.PC →
        digitalPinToPCICRbit ((12 : Nat) : Int) = 5)) :=
  ⟨⟨by decide, by decide, by decide, by decide⟩,
   pcicr_bit_follows_port sampleTags (by decide) (by decide) (by decide) 12 (by decide)⟩

/-- C16: the timer table holds `TIMER0A`, `TIMER0B`, `TIMER1A`, `TIMER1B` at
the pins `PIN_TIMER_OC0A`, `PIN_TIMER_OC0B`, `PIN_TIMER_OC1A`,
`PIN_TIMER_OC1B`; and when the five timer tags are pairwise different, each of
the four tags stands at that index only and every other entry below 18 is
`NOT_ON_TIMER`. -/
theorem timer_table_matches_compare_pins (K : CoreTags)
    (hK : [K.NOT_ON_TIMER, K.TIMER0A, K.TIMER0B, K.TIMER1A, K.TIMER1B].Nodup)
    (p : Nat) (hp : p < NUM_DIGITAL_PINS) :
    ((digital_pin_to_timer_PGM K)[PIN_TIMER_OC0A]? = some K.TIMER0A ∧
     (digital_pin_to_timer_PGM K)[PIN_TIMER_OC0B]? = some K.TIMER0B ∧
     (digital_pin_to_timer_PGM K)[PIN_TIMER_OC1A]? = some K.TIMER1A ∧
     (digital_pin_to_timer_PGM K)[PIN_TIMER_OC1B]? = some K.TIMER1B) ∧
    ((digital_pin_to_timer_PGM K)[p]? = some K.TIMER0A ↔ p = PIN_TIMER_OC0A) ∧
    ((digital_pin_to_timer_PGM K)[p]? = some K.TIMER0B ↔ p = PIN_TIMER_OC0B) ∧
    ((digital_pin_to_timer_PGM K)[p]? = some K.TIMER1A ↔ p = PIN_TIMER_OC1A) ∧
    ((digital_pin_to_timer_PGM K)[p]? = some K.TIMER1B ↔ p = PIN_TIMER_OC1B) ∧
    (p ≠ PIN_TIMER_OC0A → p ≠ PIN_TIMER_OC0B → p ≠ PIN_TIMER_OC1A → p ≠ PIN_TIMER_OC1B →
      (digital_pin_to_timer_PGM K)[p]? = some K.NOT_ON_TIMER) := by
  simp only [List.nodup_cons, List.mem_cons, List.mem_singleton, List.not_mem_nil,
    or_false, not_or, List.nodup_nil, and_true, not_false_eq_true] at hK
  obtain ⟨⟨n0A, n0B, n1A, n1B⟩, ⟨a0B, a1A, a1B⟩, ⟨b1A, b1B⟩, c1B⟩ := hK
  have n0A' := Ne.symm n0A
  have n0B' := Ne.symm n0B
  have n1A' := Ne.symm n1A
  have n1B' := Ne.symm n1B
  have a0B' := Ne.symm a0B
  have a1A' := Ne.symm a1A
  have a1B' := Ne.symm a1B
  have b1A' := Ne.symm b1A
  have b1B' := Ne.symm b1B
  have c1B' := Ne.symm c1B
  unfold NUM_DIGITAL_PINS at hp
  refine ⟨⟨rfl, rfl, rfl, rfl⟩, ?_⟩
  interval_cases p <;>
    simp [digital_pin_to_timer_PGM, PIN_TIMER_OC0A, PIN_TIMER_OC0B, PIN_TIMER_OC1A,
      PIN_TIMER_OC1B, PIN_PC0, PIN_PA5, PIN_PB3, PIN_PA6, n0A, n0B, n1A, n1B, a0B, a1A,
      a1B, b1A, b1B, c1B, n0A', n0B', n1A', n1B', a0B', a1A', a1B', b1A', b1B', c1B']

/-- Witness of C16 at the sample tags and pin 11, the pin of `TIMER1A`. -/
theorem timer_table_matches_compare_pins_witness :
    ([sampleTags.NOT_ON_TIMER, sampleTags.TIMER0A, sampleTags.TIMER0B,
      sampleTags.TIMER1A, sampleTags.TIMER1B].Nodup ∧ 11 < NUM_DIGITAL_PINS) ∧
    (((digital_pin_to_timer_PGM sampleTags)[PIN_TIMER_OC0A]? = some sampleTags.TIMER0A ∧
      (digital_pin_to_timer_PGM sampleTags)[PIN_TIMER_OC0B]? = some sampleTags.TIMER0B ∧
      (digital_pin_to_timer_PGM sampleTags)[PIN_TIMER_OC1A]? = some sampleTags.TIMER1A ∧
      (digital_pin_to_timer_PGM sampleTags)[PIN_TIMER_OC1B]? = some sampleTags.TIMER1B) ∧
     ((digital_pin_to_timer_PGM sampleTags)[11]? = some sampleTags.TIMER0A ↔
        11 = PIN_TIMER_OC0A) ∧
     ((digital_pin_to_timer_PGM sampleTags)[11]? = some sampleTags.TIMER0B ↔
        11 = PIN_TIMER_OC0B) ∧
     ((digital_pin_to_timer_PGM sampleTags)[11]? = some sampleTags.TIMER1A ↔
        11 = PIN_TIMER_OC1A) ∧
     ((digital_pin_to_timer_PGM sampleTags)[11]? = some sampleTags.TIMER1B ↔
        11 = PIN_TIMER_OC1B) ∧
     (11 ≠ PIN_TIMER_OC0A → 11 ≠ PIN_TIMER_OC0B → 11 ≠ PIN_TIMER_OC1A →
        11 ≠ PIN_TIMER_OC1B →
        (digital_pin_to_timer_PGM sampleTags)[11]? = some sampleTags.NOT_ON_TIMER)) :=
  ⟨⟨by decide, by decide⟩,
   timer_table_matches_compare_pins sampleTags (by decide) 11 (by decide)⟩

/-- C17: at the reset pin `PIN_PC3 = 17` the two register macros disagree,
whatever byte the register `GIFR` holds: `digitalPinToPCICR 17` is the null
pointer, because its upper bound is 17, and `digitalPinToPCMSK 17` is the
register `PCMSK2`. -/
theorem pcint_macros_disagree_at_reset_pin (gifr : Nat) :
    PIN_PC3 = 17 ∧ PIN_PC3 < NUM_DIGITAL_PINS ∧
    digitalPinToPCICR gifr (PIN_PC3 : Int) = NULL ∧
    digitalPinToPCMSK (PIN_PC3 : Int) = some Reg.PCMSK2 ∧
    digitalPinToPCMSK (PIN_PC3 : Int) ≠ NULL ∧
    ¬ (digitalPinToPCICR gifr (PIN_PC3 : Int) = NULL ↔
        digitalPinToPCMSK (PIN_PC3 : Int) = NULL) := by
  have hICR : digitalPinToPCICR gifr (PIN_PC3 : Int) = NULL := by
    unfold digitalPinToPCICR
    rw [if_neg (by decide)]
  have hMSK : digitalPinToPCMSK (PIN_PC3 : Int) ≠ NULL := by decide
  exact ⟨rfl, by decide, hICR, by decide, hMSK, fun h => hMSK (h.mp hICR)⟩

/-- C18: the three pin tables have exactly `NUM_DIGITAL_PINS = 18` entries and
reading them at any `p < 18` succeeds; each of the four port tables has
exactly 4 entries, `NOT_A_PORT` first and then the low address byte of the
port-A, port-B and port-C register. -/
theorem tables_total_on_domain (K : CoreTags) (R : IoRegs)
    (p : Nat) (hp : p < NUM_DIGITAL_PINS) :
    (NUM_DIGITAL_PINS = 18 ∧
     (digital_pin_to_port_PGM K).length = NUM_DIGITAL_PINS ∧
     digital_pin_to_bit_mask_PGM.length = NUM_DIGITAL_PINS ∧
     (digital_pin_to_timer_PGM K).length = NUM_DIGITAL_PINS) ∧
    (((digital_pin_to_port_PGM K)[p]?).isSome = true ∧
     (digital_pin_to_bit_mask_PGM[p]?).isSome = true ∧
     ((digital_pin_to_timer_PGM K)[p]?).isSome = true) ∧
    ((port_to_mode_PGM K R).length = 4 ∧
     (port_to_mode_PGM K R)[0]? = some K.NOT_A_PORT ∧
     (port_to_mode_PGM K R)[1]? = some (addrByte R.DDRA) ∧
     (port_to_mode_PGM K R)[2]? = some (addrByte R.DDRB) ∧
     (port_to_mode_PGM K R)[3]? = some (addrByte R.DDRC)) ∧
    ((port_to_output_PGM K R).length = 4 ∧
     (port_to_output_PGM K R)[0]? = some K.NOT_A_PORT ∧
     (port_to_output_PGM K R)[1]? = some (addrByte R.PORTA) ∧
     (port_to_output_PGM K R)[2]? = some (addrByte R.PORTB) ∧
     (port_to_output_PGM K R)[3]? = some (addrByte R.PORTC)) ∧
    ((port_to_pullup_PGM K R).length = 4 ∧
     (port_to_pullup_PGM K R)[0]? = some K.NOT_A_PORT ∧
     (port_to_pullup_PGM K R)[1]? = some (addrByte R.PUEA) ∧
     (port_to_pullup_PGM K R)[2]? = some (addrByte R.PUEB) ∧
     (port_to_pullup_PGM K R)[3]? = some (addrByte R.PUEC)) ∧
    ((port_to_input_PGM K R).length = 4 ∧
     (port_to_input_PGM K R)[0]? = some K.NOT_A_PORT ∧
     (port_to_input_PGM K R)[1]? = some (addrByte R.PINA) ∧
     (port_to_input_PGM K R)[2]? = some (addrByte R.PINB) ∧
     (port_to_input_PGM K R)[3]? = some (addrByte R.PINC)) := by
  unfold NUM_DIGITAL_PINS at hp
  refine ⟨⟨rfl, rfl, rfl, rfl⟩, ?_, ⟨rfl, rfl, rfl, rfl, rfl⟩, ⟨rfl, rfl, rfl, rfl, rfl⟩,
    ⟨rfl, rfl, rfl, rfl, rfl⟩, ⟨rfl, rfl, rfl, rfl, rfl⟩⟩
  interval_cases p <;> exact ⟨rfl, rfl, rfl⟩

/-- Witness of C18 at the sample tags, the sample addresses and the last pin. -/
theorem tables_total_on_domain_witness :
    17 < NUM_DIGITAL_PINS ∧
    (((digital_pin_to_port_PGM sampleTags)[17]?).isSome = true ∧
     (digital_pin_to_bit_mask_PGM[17]?).isSome = true ∧
     ((digital_pin_to_timer_PGM sampleTags)[17]?).isSome = true) ∧
    (port_to_mode_PGM sampleTags sampleRegs).length = 4 :=
  ⟨by decide,
   (tables_total_on_domain sampleTags sampleRegs 17 (by decide)).2.1,
   (tables_total_on_domain sampleTags sampleRegs 17 (by decide)).2.2.1.1⟩

/-- C19: with `PINB1 = 1`, `PINB2 = 2`, `PINC1 = 1`, the pins `USI_DI`,
`USI_DO` and `USI_SCK` are on port B, port B and port C, and their masks are
`1 <<< USI_DI_BIT`, `1 <<< USI_DO_BIT` and `1 <<< USI_CLOCK_BIT`. -/
theorem usi_pins_agree_with_usi_bits (K : CoreTags) :
    (PINB1 = 1 ∧ PINB2 = 2 ∧ PINC1 = 1) ∧
    ((digital_pin_to_port_PGM K)[USI_DI]? = some K.PB ∧
     digital_pin_to_bit_mask_PGM[USI_DI]? = some (1 <<< USI_DI_BIT)) ∧
    ((digital_pin_to_port_PGM K)[USI_DO]? = some K.PB ∧
     digital_pin_to_bit_mask_PGM[USI_DO]? = some (1 <<< USI_DO_BIT)) ∧
    ((digital_pin_to_port_PGM K)[USI_SCK]? = some K.PC ∧
     digital_pin_to_bit_mask_PGM[USI_SCK]? = some (1 <<< USI_CLOCK_BIT)) := by
  refine ⟨⟨rfl, rfl, rfl⟩, ⟨rfl, rfl⟩, ⟨rfl, rfl⟩, ⟨rfl, rfl⟩⟩

end Tiny1634CW
